import Mathlib

/-!
Shallow embedding of `dircomp.py` (directory comparison tool).

The embedding models:
- the filesystem snapshot the program reads through `os`/`pathlib` as a
  structure of functions (`FS`);
- `FileInfo` (metadata snapshot with a lazily computed, cached MD5 hash);
- `ComparisonResult` with its first-match-wins `status` chain;
- `DirectoryComparer` (scan, copy, edit, merge at the model level);
- `CursesUI` (selection, scroll reconciliation, busy-gated command handlers).

Machine-level details that cannot occur in the properties below are modelled
explicitly where they matter: the MD5 hex digest is an abstract parameter
`md5hex : List Nat → String` (file bytes to digest string); external processes
(editor, merge tools, the OS copy) are oracle booleans standing for their
success; collaborator invocations are recorded in an `Effect` list.
Stateful hashing is modelled by explicit state passing: `FileInfo.hash`
returns the value, the updated record, and the number of file reads performed.
-/

/-- Lexicographic comparison of character lists by code point, the order
Python uses when comparing `str` values in `sorted`.  `Char < Char` in Lean
is comparison of code points, matching Python. -/
def lexLe : List Char → List Char → Bool
  | [], _ => true
  | _ :: _, [] => false
  | a :: as, b :: bs => if a < b then true else if b < a then false else lexLe as bs

/-- Python string comparison `a <= b` (lexicographic by code point). -/
def strLe (a b : String) : Bool := lexLe a.data b.data

theorem lexLe_cons (a b : Char) (as bs : List Char) :
    lexLe (a :: as) (b :: bs) = true ↔ a < b ∨ (a = b ∧ lexLe as bs = true) := by
  simp only [lexLe]
  split
  case isTrue h => simp [h]
  case isFalse h =>
    split
    case isTrue h2 =>
      simp only [Bool.false_eq_true, false_iff]
      rintro (h3 | ⟨rfl, h3⟩)
      · exact h h3
      · exact lt_irrefl a h2
    case isFalse h2 =>
      have hab : a = b := le_antisymm (not_lt.mp h2) (not_lt.mp h)
      subst hab
      simp

theorem lexLe_total (a b : List Char) : lexLe a b = true ∨ lexLe b a = true := by
  induction a generalizing b with
  | nil => left; rfl
  | cons x as ih =>
    cases b with
    | nil => right; rfl
    | cons y bs =>
      rcases lt_trichotomy x y with h | h | h
      · left; exact (lexLe_cons ..).mpr (Or.inl h)
      · rcases ih bs with h2 | h2
        · left; exact (lexLe_cons ..).mpr (Or.inr ⟨h, h2⟩)
        · right; exact (lexLe_cons ..).mpr (Or.inr ⟨h.symm, h2⟩)
      · right; exact (lexLe_cons ..).mpr (Or.inl h)

theorem lexLe_trans (a b c : List Char) (h1 : lexLe a b = true) (h2 : lexLe b c = true) :
    lexLe a c = true := by
  induction a generalizing b c with
  | nil => rfl
  | cons x as ih =>
    cases b with
    | nil => exact absurd h1 (by simp [lexLe])
    | cons y bs =>
      cases c with
      | nil => exact absurd h2 (by simp [lexLe])
      | cons z cs =>
        rcases (lexLe_cons ..).mp h1 with hxy | ⟨rfl, hab⟩ <;>
          rcases (lexLe_cons ..).mp h2 with hyz | ⟨rfl, hbc⟩
        · exact (lexLe_cons ..).mpr (Or.inl (lt_trans hxy hyz))
        · exact (lexLe_cons ..).mpr (Or.inl hxy)
        · exact (lexLe_cons ..).mpr (Or.inl hyz)
        · exact (lexLe_cons ..).mpr (Or.inr ⟨rfl, ih bs cs hab hbc⟩)

instance : IsTotal String (fun a b => strLe a b = true) :=
  ⟨fun a b => lexLe_total a.data b.data⟩

instance : IsTrans String (fun a b => strLe a b = true) :=
  ⟨fun a b c => lexLe_trans a.data b.data c.data⟩

/-- Snapshot of the filesystem state the program observes.  `exists_` models
`Path.exists()` (`exists` is a Lean keyword); `size`/`mtime` model
`stat().st_size` / `stat().st_mtime`; `content p = none` models an
`OSError`/`IOError` raised when opening or reading `p`; `files root` lists the
relative paths of the regular files found by `root.rglob` (used by
`_scan_directory`). -/
structure FS where
  exists_ : String → Bool
  size : String → Nat
  mtime : String → Int
  content : String → Option (List Nat)
  files : String → List String

/-- `FileInfo`: metadata snapshot of one file (`dircomp.py` lines 21-41).
`_hash` is the lazy MD5 cache, `None` until first access. -/
structure FileInfo where
  path : String
  relative_path : String
  size : Nat
  mtime : Int
  exists_ : Bool
  _hash : Option String
deriving DecidableEq

/-- `FileInfo.__init__`: stat the file; size and mtime fall back to 0 when the
path does not exist; the hash cache starts empty. -/
def FileInfo.init (fs : FS) (path relative_path : String) : FileInfo :=
  { path := path
    relative_path := relative_path
    size := if fs.exists_ path then fs.size path else 0
    mtime := if fs.exists_ path then fs.mtime path else 0
    exists_ := fs.exists_ path
    _hash := none }

/-- The `FileInfo.hash` property (lines 32-41): lazily computes the MD5 hex
digest of the file content on first access and caches it; a read error caches
the empty-string sentinel; a non-existent file is never read.  Returns the
value `self._hash or ""`, the updated record (the cache slot after the call)
and the number of file reads performed (0 or 1). -/
def FileInfo.hash (md5hex : List Nat → String) (fs : FS) (fi : FileInfo) :
    String × FileInfo × Nat :=
  if fi._hash = none ∧ fi.exists_ = true then
    match fs.content fi.path with
    | some bytes => (md5hex bytes, { fi with _hash := some (md5hex bytes) }, 1)
    | none => ("", { fi with _hash := some "" }, 1)
  else (fi._hash.getD "", fi, 0)

/-- `ComparisonResult` (lines 44-50): a pair of optional `FileInfo` records for
one relative path. -/
structure ComparisonResult where
  left_file : Option FileInfo
  right_file : Option FileInfo
  relative_path : String
deriving DecidableEq

/-- `ComparisonResult.__init__`: the relative path comes from whichever side
has a record (`(left_file or right_file).relative_path`).  Both sides absent
raises `AttributeError` in the source; modelled as the empty path, unreachable
from scan output. -/
def ComparisonResult.init (left_file right_file : Option FileInfo) : ComparisonResult :=
  { left_file := left_file
    right_file := right_file
    relative_path :=
      match left_file with
      | some fi => fi.relative_path
      | none =>
        match right_file with
        | some fi => fi.relative_path
        | none => "" }

/-- Python truthiness test `record and record.exists` on an optional record. -/
def file_present : Option FileInfo → Bool
  | some fi => fi.exists_
  | none => false

/-- The `ComparisonResult.status` property (lines 52-66): the first-match-wins
classification chain.  Returns the status string, the result with the hash
caches as they stand after the call (the source mutates the `FileInfo` objects
in place), and the number of file reads performed. -/
def ComparisonResult.status (md5hex : List Nat → String) (fs : FS) (r : ComparisonResult) :
    String × ComparisonResult × Nat :=
  match r.left_file with
  | none => ("ONLY_RIGHT", r, 0)
  | some lf =>
    if lf.exists_ = false then ("ONLY_RIGHT", r, 0)
    else
      match r.right_file with
      | none => ("ONLY_LEFT", r, 0)
      | some rf =>
        if rf.exists_ = false then ("ONLY_LEFT", r, 0)
        else if lf.size ≠ rf.size then ("DIFFERENT_SIZE", r, 0)
        else if 1 < |lf.mtime - rf.mtime| then ("DIFFERENT_TIME", r, 0)
        else
          let lh := FileInfo.hash md5hex fs lf
          let rh := FileInfo.hash md5hex fs rf
          let r2 := { r with left_file := some lh.2.1, right_file := some rh.2.1 }
          if lh.1 ≠ rh.1 then ("DIFFERENT_CONTENT", r2, lh.2.2 + rh.2.2)
          else ("IDENTICAL", r2, lh.2.2 + rh.2.2)

/-- The `is_text` heuristic inside `can_merge` (lines 99-103): a sample is text
when it is empty or more than 70% of its bytes are printable ASCII or
tab/LF/CR.  The float comparison `text_chars / len(data) > 0.7` is expressed
exactly over the integers. -/
def is_text (data : List Nat) : Bool :=
  if data = [] then true
  else
    let text_chars :=
      (data.filter (fun b => (32 ≤ b && b < 127) || b == 9 || b == 10 || b == 13)).length
    decide (7 * data.length < 10 * text_chars)

/-- The `ComparisonResult.can_merge` property (lines 81-107): both sides must
exist, the status must not be IDENTICAL, and the first 512 bytes of each side
must pass the text heuristic; any read error fails closed. -/
def ComparisonResult.can_merge (md5hex : List Nat → String) (fs : FS)
    (r : ComparisonResult) : Bool :=
  match r.left_file, r.right_file with
  | some lf, some rf =>
    if lf.exists_ && rf.exists_ then
      if (ComparisonResult.status md5hex fs r).1 = "IDENTICAL" then false
      else
        match fs.content lf.path, fs.content rf.path with
        | some left_sample, some right_sample =>
          is_text (left_sample.take 512) && is_text (right_sample.take 512)
        | _, _ => false
    else false
  | _, _ => false

/-- Collaborator invocations recorded by the model: worker-thread dispatch for
copies, external editor / merge-tool subprocesses, and full rescans. -/
inductive Effect where
  | dispatch_copy_left_to_right
  | dispatch_copy_right_to_left
  | run_editor
  | run_merge_tool
  | rescan
deriving DecidableEq

/-- `DirectoryComparer` (lines 110-117): the two roots, the result list and the
selected index (a Python `int`, hence `Int`). -/
structure DirectoryComparer where
  left_dir : String
  right_dir : String
  results : List ComparisonResult
  selected_index : Int
deriving DecidableEq

/-- Default used with `List.getD` for in-range indexing (never observed). -/
def empty_result : ComparisonResult := ComparisonResult.init none none

/-- `DirectoryComparer._scan_directory` (lines 133-146): a missing root yields
an empty mapping; otherwise every regular file under the root is keyed by its
relative path.  The dict is modelled as its key list plus a lookup function. -/
def DirectoryComparer._scan_directory (fs : FS) (directory : String) :
    List String × (String → Option FileInfo) :=
  if fs.exists_ directory then
    ((fs.files directory).dedup,
     fun k =>
       if k ∈ fs.files directory then
         some (FileInfo.init fs (directory ++ "/" ++ k) k)
       else none)
  else ([], fun _ => none)

/-- Body of `DirectoryComparer.scan_directories` (lines 119-131): union the two
key sets, sort ascending (Python `sorted` over a `set`), and build one
`ComparisonResult` per key from whichever sides have an entry. -/
def build_results (left_keys right_keys : List String)
    (left_files right_files : String → Option FileInfo) : List ComparisonResult :=
  let all_relative_paths := (left_keys ++ right_keys).dedup
  (List.insertionSort (fun a b => strLe a b = true) all_relative_paths).map
    (fun rel_path => ComparisonResult.init (left_files rel_path) (right_files rel_path))

/-- `DirectoryComparer.scan_directories` (lines 119-131). -/
def DirectoryComparer.scan_directories (fs : FS) (c : DirectoryComparer) : DirectoryComparer :=
  let left_scan := DirectoryComparer._scan_directory fs c.left_dir
  let right_scan := DirectoryComparer._scan_directory fs c.right_dir
  { c with results := build_results left_scan.1 right_scan.1 left_scan.2 right_scan.2 }

/-- `shutil.copy2` on the filesystem snapshot: the destination adopts the
source's content, size and modification time (copy2 preserves mtime). -/
def copy2 (fs : FS) (src dst : String) : FS :=
  { fs with
    exists_ := fun p => if p = dst then true else fs.exists_ p
    size := fun p => if p = dst then fs.size src else fs.size p
    mtime := fun p => if p = dst then fs.mtime src else fs.mtime p
    content := fun p => if p = dst then fs.content src else fs.content p }

/-- `DirectoryComparer.copy_file_left_to_right` (lines 148-166).  `copy_ok`
models whether the OS-level `mkdir`/`copy2` calls raise; on the exception path
the destination is not adopted and the model state is unchanged.  Returns the
success flag, the filesystem after the call and the updated comparer. -/
def DirectoryComparer.copy_file_left_to_right (copy_ok : Bool) (fs : FS)
    (c : DirectoryComparer) (index : Int) : Bool × FS × DirectoryComparer :=
  if 0 ≤ index ∧ index < (c.results.length : Int) then
    let result := c.results.getD index.toNat empty_result
    match result.left_file with
    | none => (false, fs, c)
    | some lf =>
      if lf.exists_ = false then (false, fs, c)
      else if copy_ok then
        let dest_path := c.right_dir ++ "/" ++ result.relative_path
        let fs2 := copy2 fs lf.path dest_path
        let result2 :=
          { result with right_file := some (FileInfo.init fs2 dest_path result.relative_path) }
        (true, fs2, { c with results := c.results.set index.toNat result2 })
      else (false, fs, c)
  else (false, fs, c)

/-- `DirectoryComparer.copy_file_right_to_left` (lines 168-186), the mirror
image of `copy_file_left_to_right`. -/
def DirectoryComparer.copy_file_right_to_left (copy_ok : Bool) (fs : FS)
    (c : DirectoryComparer) (index : Int) : Bool × FS × DirectoryComparer :=
  if 0 ≤ index ∧ index < (c.results.length : Int) then
    let result := c.results.getD index.toNat empty_result
    match result.right_file with
    | none => (false, fs, c)
    | some rf =>
      if rf.exists_ = false then (false, fs, c)
      else if copy_ok then
        let dest_path := c.left_dir ++ "/" ++ result.relative_path
        let fs2 := copy2 fs rf.path dest_path
        let result2 :=
          { result with left_file := some (FileInfo.init fs2 dest_path result.relative_path) }
        (true, fs2, { c with results := c.results.set index.toNat result2 })
      else (false, fs, c)
  else (false, fs, c)

/-- The `files_to_edit` list assembled by `DirectoryComparer.edit_file`
(lines 193-200): the path of each requested side whose record exists. -/
def files_to_edit (result : ComparisonResult) (side : String) : List String :=
  (if side == "left" || side == "both" then
    match result.left_file with
    | some lf => if lf.exists_ then [lf.path] else []
    | none => []
   else []) ++
  (if side == "right" || side == "both" then
    match result.right_file with
    | some rf => if rf.exists_ then [rf.path] else []
    | none => []
   else [])

/-- `DirectoryComparer.edit_file` (lines 188-223).  `editor_ok` models the
editor subprocess exit status (and its binary being present); the subprocess
invocation is recorded as a `run_editor` effect.  The comparer itself is not
mutated. -/
def DirectoryComparer.edit_file (editor_ok : Bool) (c : DirectoryComparer)
    (index : Int) (side : String) : Bool × List Effect :=
  if 0 ≤ index ∧ index < (c.results.length : Int) then
    let result := c.results.getD index.toNat empty_result
    if files_to_edit result side = [] then (false, [])
    else (editor_ok, [Effect.run_editor])
  else (false, [])

/-- `DirectoryComparer.merge_files` (lines 225-263).  `merge_tool_ok` models
"some external merge tool is installed and exits successfully"; when every
tool fails the source falls back to `edit_file(index, "both")` (failed tool
attempts are not tracked as effects). -/
def DirectoryComparer.merge_files (merge_tool_ok editor_ok : Bool)
    (md5hex : List Nat → String) (fs : FS) (c : DirectoryComparer) (index : Int) :
    Bool × List Effect :=
  if 0 ≤ index ∧ index < (c.results.length : Int) then
    let result := c.results.getD index.toNat empty_result
    if ComparisonResult.can_merge md5hex fs result = false then (false, [])
    else if merge_tool_ok then (true, [Effect.run_merge_tool])
    else DirectoryComparer.edit_file editor_ok c index "both"
  else (false, [])

/-- `DirectoryComparer.create_merge_file` (lines 265-311).  `tmp_name` models
the temporary-file creation: the scratch file's name, or `none` when the
`tempfile` machinery raises. -/
def DirectoryComparer.create_merge_file (tmp_name : Option String)
    (md5hex : List Nat → String) (fs : FS) (c : DirectoryComparer) (index : Int) :
    Option String :=
  if 0 ≤ index ∧ index < (c.results.length : Int) then
    let result := c.results.getD index.toNat empty_result
    if ComparisonResult.can_merge md5hex fs result = false then none
    else tmp_name
  else none

/-- `CursesUI` state (lines 314-325): the wrapped comparer, the scroll offset,
the transient status message and the `copying` busy flag.  Rendering-only
fields (screen handle, dimensions) are outside the model. -/
structure CursesUI where
  comparer : DirectoryComparer
  scroll_offset : Int
  status_message : String
  copying : Bool
deriving DecidableEq

/-- `CursesUI._move_selection` (lines 564-571): no-op on an empty result list;
otherwise clamp the new index into `[0, len-1]` and clear the status
message. -/
def CursesUI._move_selection (s : CursesUI) (delta : Int) : CursesUI :=
  if s.comparer.results.isEmpty then s
  else
    let new_index := s.comparer.selected_index + delta
    { s with
      comparer :=
        { s.comparer with
          selected_index := max 0 (min ((s.comparer.results.length : Int) - 1) new_index) }
      status_message := "" }

/-- The scroll-reconciliation block at the top of `CursesUI._draw_file_list`
(lines 437-441), run before every render. -/
def adjust_scroll_offset (selected_index scroll_offset list_height : Int) : Int :=
  if selected_index < scroll_offset then selected_index
  else if scroll_offset + list_height ≤ selected_index then
    max 0 (selected_index - list_height + 1)
  else scroll_offset

/-- `CursesUI._copy_file_left_to_right` (lines 573-587), the main-thread part:
reject when busy or no results, otherwise start a worker thread.  The handler
itself mutates nothing; the `copying` flag is only touched inside the worker
(`copy_thread_left_to_right`). -/
def CursesUI._copy_file_left_to_right (s : CursesUI) : CursesUI × List Effect :=
  if s.copying || s.comparer.results.isEmpty then (s, [])
  else (s, [Effect.dispatch_copy_left_to_right])

/-- `CursesUI._copy_file_right_to_left` (lines 589-603), the main-thread part. -/
def CursesUI._copy_file_right_to_left (s : CursesUI) : CursesUI × List Effect :=
  if s.copying || s.comparer.results.isEmpty then (s, [])
  else (s, [Effect.dispatch_copy_right_to_left])

/-- The `copy_thread` body spawned by `_copy_file_left_to_right` (lines
578-586): set `copying`, perform the copy at the selected index, clear
`copying`, report the outcome. -/
def CursesUI.copy_thread_left_to_right (copy_ok : Bool) (fs : FS) (s : CursesUI) :
    CursesUI × FS :=
  let s1 := { s with copying := true }
  let r := DirectoryComparer.copy_file_left_to_right copy_ok fs s1.comparer
    s1.comparer.selected_index
  ({ s1 with
      comparer := r.2.2
      copying := false
      status_message := if r.1 then "File copied left → right" else "Failed to copy file" },
   r.2.1)

/-- `CursesUI._edit_file` (lines 605-644): busy/empty gate, existence check for
the requested side(s), then the synchronous edit with `copying` held during the
call and a rescan on success. -/
def CursesUI._edit_file (editor_ok : Bool) (fs : FS) (s : CursesUI) (side : String) :
    CursesUI × List Effect :=
  if s.copying || s.comparer.results.isEmpty then (s, [])
  else
    let result := s.comparer.results.getD s.comparer.selected_index.toNat empty_result
    let left_ok := (side == "left" || side == "both") && file_present result.left_file
    let right_ok := (side == "right" || side == "both") && file_present result.right_file
    if !(left_ok || right_ok) then
      ({ s with status_message := "No " ++ side ++ " file(s) to edit" }, [])
    else
      let s1 := { s with copying := true, status_message := "Editing " ++ side ++ " file(s)..." }
      let e := DirectoryComparer.edit_file editor_ok s1.comparer s1.comparer.selected_index side
      if e.1 then
        ({ s1 with
            comparer := DirectoryComparer.scan_directories fs s1.comparer
            copying := false
            status_message :=
              if side == "both" then "Files edited successfully"
              else side.capitalize ++ " file edited successfully" },
         e.2 ++ [Effect.rescan])
      else
        ({ s1 with copying := false, status_message := "Editor failed or was cancelled" }, e.2)

/-- `CursesUI._merge_files` (lines 646-674): busy/empty gate, `can_merge`
check, then the synchronous merge with a rescan on success. -/
def CursesUI._merge_files (merge_tool_ok editor_ok : Bool) (md5hex : List Nat → String)
    (fs : FS) (s : CursesUI) : CursesUI × List Effect :=
  if s.copying || s.comparer.results.isEmpty then (s, [])
  else
    let result := s.comparer.results.getD s.comparer.selected_index.toNat empty_result
    if ComparisonResult.can_merge md5hex fs result = false then
      ({ s with status_message := "Files cannot be merged (missing or binary)" }, [])
    else
      let s1 := { s with copying := true, status_message := "Starting merge tool..." }
      let e := DirectoryComparer.merge_files merge_tool_ok editor_ok md5hex fs s1.comparer
        s1.comparer.selected_index
      if e.1 then
        ({ s1 with
            comparer := DirectoryComparer.scan_directories fs s1.comparer
            copying := false
            status_message := "Files merged successfully" },
         e.2 ++ [Effect.rescan])
      else
        ({ s1 with copying := false, status_message := "Merge failed or was cancelled" }, e.2)

/-- `CursesUI._manual_merge` (lines 676-707): busy/empty gate, `can_merge`
check, then create the scratch merge file and open it in the editor. -/
def CursesUI._manual_merge (tmp_name : Option String) (editor_ok : Bool)
    (md5hex : List Nat → String) (fs : FS) (s : CursesUI) : CursesUI × List Effect :=
  if s.copying || s.comparer.results.isEmpty then (s, [])
  else
    let result := s.comparer.results.getD s.comparer.selected_index.toNat empty_result
    if ComparisonResult.can_merge md5hex fs result = false then
      ({ s with status_message := "Files cannot be merged (missing or binary)" }, [])
    else
      let s1 := { s with copying := true, status_message := "Creating manual merge file..." }
      match DirectoryComparer.create_merge_file tmp_name md5hex fs s1.comparer
          s1.comparer.selected_index with
      | some merge_file =>
        if editor_ok then
          ({ s1 with
              copying := false
              status_message := "Manual merge completed: " ++ merge_file },
           [Effect.run_editor])
        else
          ({ s1 with
              copying := false
              status_message := "Failed to open merge file in editor" },
           [Effect.run_editor])
      | none =>
        ({ s1 with copying := false, status_message := "Failed to create merge file" }, [])

/-- `CursesUI._refresh_directories` (lines 709-715): rescan both trees and
reset selection and scroll to 0.  The source has no busy/empty gate here. -/
def CursesUI._refresh_directories (fs : FS) (s : CursesUI) : CursesUI × List Effect :=
  let c2 := DirectoryComparer.scan_directories fs s.comparer
  ({ s with
      comparer := { c2 with selected_index := 0 }
      scroll_offset := 0
      status_message := "Refreshed" },
   [Effect.rescan])

/-- Concrete stand-in for the MD5 hex digest used to evaluate the model on
concrete inputs.  Like every MD5 hex digest its output is a nonempty 32-hex
string; the digest of the empty byte string is the real `md5(b"").hexdigest()`. -/
def md5stub : List Nat → String := fun data =>
  if data = [] then "d41d8cd98f00b204e9800998ecf8427e"
  else "9e688c58a5487b8eaf69c9e1005ad0bf"

/-- Concrete filesystem snapshot: roots `L` and `R`; `a.txt` on both sides
(empty content on the left, one byte on the right), `b.txt` only on the left
(larger, newer), `u.txt` on both sides but unreadable. -/
def fs0 : FS :=
  { exists_ := fun p =>
      ["L", "R", "L/a.txt", "R/a.txt", "L/b.txt", "L/u.txt", "R/u.txt"].contains p
    size := fun p => if p = "L/b.txt" then 9 else 5
    mtime := fun p => if p = "L/b.txt" then 200 else 100
    content := fun p =>
      if p = "L/a.txt" then some []
      else if p = "R/a.txt" then some [1]
      else if p = "L/u.txt" || p = "R/u.txt" then none
      else some [2]
    files := fun d =>
      if d = "L" then ["a.txt", "b.txt", "u.txt"]
      else if d = "R" then ["a.txt", "u.txt"]
      else [] }

def fi_a : FileInfo := FileInfo.init fs0 "L/a.txt" "a.txt"

def fi_b : FileInfo := FileInfo.init fs0 "R/a.txt" "a.txt"

def fi_big : FileInfo := FileInfo.init fs0 "L/b.txt" "b.txt"

def fi_ul : FileInfo := FileInfo.init fs0 "L/u.txt" "u.txt"

def fi_ur : FileInfo := FileInfo.init fs0 "R/u.txt" "u.txt"

/-- Same size as `fi_a` but five seconds newer (no content ever read). -/
def fi_late : FileInfo :=
  { path := "R/late.txt", relative_path := "a.txt", size := 5, mtime := 105,
    exists_ := true, _hash := none }

def r_or : ComparisonResult := ComparisonResult.init none (some fi_b)

def r_ol : ComparisonResult := ComparisonResult.init (some fi_a) none

def r_size : ComparisonResult := ComparisonResult.init (some fi_a) (some fi_big)

def r_time : ComparisonResult := ComparisonResult.init (some fi_a) (some fi_late)

def r_content : ComparisonResult := ComparisonResult.init (some fi_a) (some fi_b)

def r_ident : ComparisonResult := ComparisonResult.init (some fi_a) (some fi_a)

def r_unread : ComparisonResult := ComparisonResult.init (some fi_ul) (some fi_ur)

def cmp0 : DirectoryComparer :=
  { left_dir := "L", right_dir := "R", results := [r_content, r_ol], selected_index := 0 }

def ui_ready : CursesUI :=
  { comparer := cmp0, scroll_offset := 0, status_message := "", copying := false }

def ui_busy : CursesUI :=
  { comparer := { cmp0 with selected_index := 1 }, scroll_offset := 1,
    status_message := "x", copying := true }

/-- Left scan mapping with keys `a.txt`, `b.txt` (used to evaluate the scan
and compare pipeline on concrete input). -/
def wlm : String → Option FileInfo := fun k =>
  if k = "a.txt" ∨ k = "b.txt" then
    some { path := "L/" ++ k, relative_path := k, size := 1, mtime := 0,
           exists_ := true, _hash := none }
  else none

/-- Right scan mapping with keys `a.txt`, `c.txt`. -/
def wrm : String → Option FileInfo := fun k =>
  if k = "a.txt" ∨ k = "c.txt" then
    some { path := "R/" ++ k, relative_path := k, size := 1, mtime := 0,
           exists_ := true, _hash := none }
  else none

def cmp3 : DirectoryComparer :=
  { left_dir := "L", right_dir := "R", results := [r_or, r_ol, r_content],
    selected_index := 0 }

def ui3 : CursesUI :=
  { comparer := cmp3, scroll_offset := 0, status_message := "m", copying := false }

/-- C1: the status of a `ComparisonResult` is decided by a first-match-wins
chain in this exact order: ONLY_RIGHT when the left record is absent or does
not exist; else ONLY_LEFT when the right record is absent or does not exist;
else DIFFERENT_SIZE when the sizes differ (regardless of time or content);
else DIFFERENT_TIME when the modification times differ by strictly more than
one second; else DIFFERENT_CONTENT when the content hashes differ; else
IDENTICAL. -/
theorem c1_status_first_match_wins (md5hex : List Nat → String) (fs : FS)
    (r : ComparisonResult) :
    (file_present r.left_file = false →
      (ComparisonResult.status md5hex fs r).1 = "ONLY_RIGHT")
  ∧ (file_present r.left_file = true → file_present r.right_file = false →
      (ComparisonResult.status md5hex fs r).1 = "ONLY_LEFT")
  ∧ (∀ lf rf, r.left_file = some lf → r.right_file = some rf →
      lf.exists_ = true → rf.exists_ = true →
      (lf.size ≠ rf.size →
        (ComparisonResult.status md5hex fs r).1 = "DIFFERENT_SIZE")
    ∧ (lf.size = rf.size → 1 < |lf.mtime - rf.mtime| →
        (ComparisonResult.status md5hex fs r).1 = "DIFFERENT_TIME")
    ∧ (lf.size = rf.size → |lf.mtime - rf.mtime| ≤ 1 →
        (FileInfo.hash md5hex fs lf).1 ≠ (FileInfo.hash md5hex fs rf).1 →
        (ComparisonResult.status md5hex fs r).1 = "DIFFERENT_CONTENT")
    ∧ (lf.size = rf.size → |lf.mtime - rf.mtime| ≤ 1 →
        (FileInfo.hash md5hex fs lf).1 = (FileInfo.hash md5hex fs rf).1 →
        (ComparisonResult.status md5hex fs r).1 = "IDENTICAL")) := by
  refine ⟨?_, ?_, ?_⟩
  · intro h
    cases hl : r.left_file with
    | none => simp [ComparisonResult.status, hl]
    | some lf =>
      rw [hl] at h
      simp only [file_present] at h
      simp [ComparisonResult.status, hl, h]
  · intro h1 h2
    cases hl : r.left_file with
    | none => rw [hl] at h1; simp [file_present] at h1
    | some lf =>
      rw [hl] at h1
      simp only [file_present] at h1
      cases hr : r.right_file with
      | none => simp [ComparisonResult.status, hl, hr, h1]
      | some rf =>
        rw [hr] at h2
        simp only [file_present] at h2
        simp [ComparisonResult.status, hl, hr, h1, h2]
  · intro lf rf hl hr hlex hrex
    refine ⟨?_, ?_, ?_, ?_⟩
    · intro hsz
      simp [ComparisonResult.status, hl, hr, hlex, hrex, hsz]
    · intro hsz ht
      simp [ComparisonResult.status, hl, hr, hlex, hrex, hsz, ht, not_lt.mpr]
    · intro hsz ht hh
      have ht2 : ¬(1 < |lf.mtime - rf.mtime|) := not_lt.mpr ht
      simp [ComparisonResult.status, hl, hr, hlex, hrex, hsz, ht2, hh]
    · intro hsz ht hh
      have ht2 : ¬(1 < |lf.mtime - rf.mtime|) := not_lt.mpr ht
      simp [ComparisonResult.status, hl, hr, hlex, hrex, hsz, ht2, hh]

/-- Witness for C1: each branch of the chain at a concrete pair of records;
the DIFFERENT_SIZE pair also differs in time and content. -/
theorem c1_witness :
    (ComparisonResult.status md5stub fs0 r_or).1 = "ONLY_RIGHT"
  ∧ (ComparisonResult.status md5stub fs0 r_ol).1 = "ONLY_LEFT"
  ∧ (ComparisonResult.status md5stub fs0 r_size).1 = "DIFFERENT_SIZE"
  ∧ (ComparisonResult.status md5stub fs0 r_time).1 = "DIFFERENT_TIME"
  ∧ (ComparisonResult.status md5stub fs0 r_content).1 = "DIFFERENT_CONTENT"
  ∧ (ComparisonResult.status md5stub fs0 r_ident).1 = "IDENTICAL" :=
  ⟨(c1_status_first_match_wins md5stub fs0 r_or).1 (by decide),
   (c1_status_first_match_wins md5stub fs0 r_ol).2.1 (by decide) (by decide),
   ((c1_status_first_match_wins md5stub fs0 r_size).2.2 fi_a fi_big rfl rfl
     (by decide) (by decide)).1 (by decide),
   ((c1_status_first_match_wins md5stub fs0 r_time).2.2 fi_a fi_late rfl rfl
     (by decide) (by decide)).2.1 (by decide) (by decide),
   ((c1_status_first_match_wins md5stub fs0 r_content).2.2 fi_a fi_b rfl rfl
     (by decide) (by decide)).2.2.1 (by decide) (by decide) (by decide),
   ((c1_status_first_match_wins md5stub fs0 r_ident).2.2 fi_a fi_a rfl rfl
     (by decide) (by decide)).2.2.2 (by decide) (by decide) (by decide)⟩

/-- C2: for every pair of scan mappings, the built result list has exactly one
`ComparisonResult` per relative path in the union of the two key sets (no
duplicates, none dropped), and its relative paths are sorted ascending in
lexicographic code-point order.  The hypotheses state what `_scan_directory`
guarantees of its output dict: every key has an entry and every entry's
`relative_path` is its key. -/
theorem c2_build_results_union_sorted (left_keys right_keys : List String)
    (left_files right_files : String → Option FileInfo)
    (hL : ∀ k fi, left_files k = some fi → fi.relative_path = k)
    (hR : ∀ k fi, right_files k = some fi → fi.relative_path = k)
    (hLk : ∀ k, k ∈ left_keys → (left_files k).isSome = true)
    (hRk : ∀ k, k ∈ right_keys → (right_files k).isSome = true) :
    List.Sorted (fun a b => strLe a b = true)
      ((build_results left_keys right_keys left_files right_files).map
        (fun r => r.relative_path))
  ∧ ((build_results left_keys right_keys left_files right_files).map
      (fun r => r.relative_path)).Nodup
  ∧ ∀ p, ((build_results left_keys right_keys left_files right_files).map
      (fun r => r.relative_path)).count p =
        if p ∈ left_keys ∨ p ∈ right_keys then 1 else 0 := by
  have hperm := List.perm_insertionSort (fun a b => strLe a b = true)
    ((left_keys ++ right_keys).dedup)
  have hkey : ∀ k, k ∈ left_keys ∨ k ∈ right_keys →
      (ComparisonResult.init (left_files k) (right_files k)).relative_path = k := by
    intro k hk
    cases hlf : left_files k with
    | some fi => simp [ComparisonResult.init, hL k fi hlf]
    | none =>
      have hkr : k ∈ right_keys := by
        rcases hk with hk | hk
        · have h2 := hLk k hk
          rw [hlf] at h2
          simp at h2
        · exact hk
      cases hrf : right_files k with
      | some fi => simp [ComparisonResult.init, hlf, hR k fi hrf, hrf]
      | none =>
        have h2 := hRk k hkr
        rw [hrf] at h2
        simp at h2
  have hmem : ∀ k, k ∈ List.insertionSort (fun a b => strLe a b = true)
      ((left_keys ++ right_keys).dedup) ↔ (k ∈ left_keys ∨ k ∈ right_keys) := by
    intro k
    rw [hperm.mem_iff, List.mem_dedup, List.mem_append]
  have hmap : ∀ l : List String, (∀ k ∈ l, k ∈ left_keys ∨ k ∈ right_keys) →
      ((l.map (fun rel_path =>
          ComparisonResult.init (left_files rel_path) (right_files rel_path))).map
        (fun r => r.relative_path)) = l := by
    intro l hl
    induction l with
    | nil => rfl
    | cons x xs ih =>
      simp only [List.map_cons]
      rw [hkey x (hl x (List.mem_cons_self x xs)),
        ih (fun k hk => hl k (List.mem_cons_of_mem x hk))]
  have heq : (build_results left_keys right_keys left_files right_files).map
      (fun r => r.relative_path) =
      List.insertionSort (fun a b => strLe a b = true) ((left_keys ++ right_keys).dedup) := by
    simp only [build_results]
    exact hmap _ (fun k hk => (hmem k).mp hk)
  have hnodup : (List.insertionSort (fun a b => strLe a b = true)
      ((left_keys ++ right_keys).dedup)).Nodup :=
    hperm.nodup_iff.mpr (List.nodup_dedup _)
  refine ⟨?_, ?_, ?_⟩
  · rw [heq]
    exact List.sorted_insertionSort _ _
  · rw [heq]
    exact hnodup
  · intro p
    rw [heq]
    by_cases hp : p ∈ left_keys ∨ p ∈ right_keys
    · rw [if_pos hp]
      exact List.count_eq_one_of_mem hnodup ((hmem p).mpr hp)
    · rw [if_neg hp]
      exact List.count_eq_zero_of_not_mem (fun h2 => hp ((hmem p).mp h2))

/-- Witness for C2: scans with keys left `b.txt`, `a.txt` and right `c.txt`,
`a.txt` produce the sorted union with one entry per path. -/
theorem c2_witness :
    List.Sorted (fun a b => strLe a b = true)
      ((build_results ["b.txt", "a.txt"] ["c.txt", "a.txt"] wlm wrm).map
        (fun r => r.relative_path))
  ∧ ((build_results ["b.txt", "a.txt"] ["c.txt", "a.txt"] wlm wrm).map
      (fun r => r.relative_path)).count "a.txt" = 1 := by
  have h := c2_build_results_union_sorted ["b.txt", "a.txt"] ["c.txt", "a.txt"] wlm wrm
    (by
      intro k fi hfi
      simp only [wlm] at hfi
      split at hfi
      · cases hfi
        rfl
      · cases hfi)
    (by
      intro k fi hfi
      simp only [wrm] at hfi
      split at hfi
      · cases hfi
        rfl
      · cases hfi)
    (by
      intro k hk
      simp only [List.mem_cons, List.not_mem_nil, or_false] at hk
      rcases hk with rfl | rfl <;> decide)
    (by
      intro k hk
      simp only [List.mem_cons, List.not_mem_nil, or_false] at hk
      rcases hk with rfl | rfl <;> decide)
  refine ⟨h.1, ?_⟩
  rw [h.2.2 "a.txt"]
  decide

/-- C3: the content-hash cache of a freshly constructed record is `None`; a
hash access performs at most one file read; after one access the value is
cached and a second access returns the same value, the same record and
performs no read (never recomputed); and evaluating `status` performs a file
read only when the chain reaches the content check, i.e. only when both sides
exist, the sizes are equal and the modification times are within the
one-second tolerance. -/
theorem c3_lazy_cached_hash (md5hex : List Nat → String) (fs : FS)
    (path rel : String) (fi : FileInfo) (r : ComparisonResult)
    (hreads : 0 < (ComparisonResult.status md5hex fs r).2.2) :
    (FileInfo.init fs path rel)._hash = none
  ∧ (FileInfo.hash md5hex fs fi).2.2 ≤ 1
  ∧ FileInfo.hash md5hex fs (FileInfo.hash md5hex fs fi).2.1 =
      ((FileInfo.hash md5hex fs fi).1, (FileInfo.hash md5hex fs fi).2.1, 0)
  ∧ ∃ lf rf, r.left_file = some lf ∧ r.right_file = some rf ∧
      lf.exists_ = true ∧ rf.exists_ = true ∧ lf.size = rf.size ∧
      |lf.mtime - rf.mtime| ≤ 1 := by
  refine ⟨rfl, ?_, ?_, ?_⟩
  · unfold FileInfo.hash
    split
    · cases fs.content fi.path <;> simp
    · simp
  · unfold FileInfo.hash
    split
    case isTrue h =>
      cases hc : fs.content fi.path with
      | some bytes => simp [FileInfo.hash]
      | none => simp [FileInfo.hash]
    case isFalse h =>
      simp [FileInfo.hash, h]
  · cases hl : r.left_file with
    | none => simp [ComparisonResult.status, hl] at hreads
    | some lf =>
      by_cases hlex : lf.exists_ = false
      · simp [ComparisonResult.status, hl, hlex] at hreads
      · have hlex2 : lf.exists_ = true := by
          revert hlex
          cases lf.exists_ <;> simp
        cases hr : r.right_file with
        | none => simp [ComparisonResult.status, hl, hr, hlex] at hreads
        | some rf =>
          by_cases hrex : rf.exists_ = false
          · simp [ComparisonResult.status, hl, hr, hlex, hrex] at hreads
          · have hrex2 : rf.exists_ = true := by
              revert hrex
              cases rf.exists_ <;> simp
            by_cases hsz : lf.size = rf.size
            case neg =>
              simp [ComparisonResult.status, hl, hr, hlex, hrex, hsz] at hreads
            case pos =>
              by_cases ht : 1 < |lf.mtime - rf.mtime|
              · simp [ComparisonResult.status, hl, hr, hlex, hrex, hsz, ht] at hreads
              · exact ⟨lf, rf, rfl, rfl, hlex2, hrex2, hsz, not_lt.mp ht⟩

/-- Witness for C3: the fresh record for `L/a.txt` has an empty cache; a second
hash access on it returns the cached value with zero reads; and the status of
the `a.txt` pair does reach the content check (positive read count). -/
theorem c3_witness :
    (FileInfo.init fs0 "L/a.txt" "a.txt")._hash = none
  ∧ FileInfo.hash md5stub fs0 (FileInfo.hash md5stub fs0 fi_a).2.1 =
      ((FileInfo.hash md5stub fs0 fi_a).1, (FileInfo.hash md5stub fs0 fi_a).2.1, 0)
  ∧ 0 < (ComparisonResult.status md5stub fs0 r_content).2.2 := by
  have h := c3_lazy_cached_hash md5stub fs0 "L/a.txt" "a.txt" fi_a r_content (by decide)
  exact ⟨h.1, h.2.2.1, by decide⟩

/-- C4 counterexample: `L/a.txt` is readable with empty content, yet its hash
is the MD5 digest of the empty byte string (a nonempty 32-character hex
string), not the empty-string sentinel the claim asserts. -/
theorem c4_counterexample_empty_file_hash :
    fi_a.exists_ = true
  ∧ fs0.content fi_a.path = some []
  ∧ (FileInfo.hash md5stub fs0 fi_a).1 ≠ "" := by decide

/-- C4 amended: a record that does not exist, or whose read fails, hashes to
the empty-string sentinel; two failed reads give equal hashes, and two
existing-but-unreadable records of equal size and close modification times
classify as IDENTICAL; the sentinel differs from the hash of every readable
file (MD5 hex digests are never empty, stated as a hypothesis on the digest
function); an empty readable file hashes to the digest of the empty byte
string, not to the sentinel. -/
theorem c4_amended_hash_sentinel (md5hex : List Nat → String) (fs : FS)
    (fi fj : FileInfo) (r : ComparisonResult)
    (hmd5 : ∀ bs, md5hex bs ≠ "")
    (hfi : fi._hash = none) (hfj : fj._hash = none)
    (hfex : fi.exists_ = true) (hjex : fj.exists_ = true)
    (hfc : fs.content fi.path = none) (hjc : fs.content fj.path = none) :
    (FileInfo.hash md5hex fs fi).1 = ""
  ∧ (FileInfo.hash md5hex fs fi).1 = (FileInfo.hash md5hex fs fj).1
  ∧ (r.left_file = some fi → r.right_file = some fj → fi.size = fj.size →
      |fi.mtime - fj.mtime| ≤ 1 →
      (ComparisonResult.status md5hex fs r).1 = "IDENTICAL")
  ∧ (∀ gi : FileInfo, gi._hash = none → gi.exists_ = true →
      ∀ bs, fs.content gi.path = some bs → (FileInfo.hash md5hex fs gi).1 ≠ "")
  ∧ (∀ gi : FileInfo, gi._hash = none → gi.exists_ = true →
      fs.content gi.path = some [] → (FileInfo.hash md5hex fs gi).1 = md5hex [])
  ∧ (∀ gi : FileInfo, gi._hash = none → gi.exists_ = false →
      (FileInfo.hash md5hex fs gi).1 = "") := by
  have hh1 : (FileInfo.hash md5hex fs fi).1 = "" := by
    simp [FileInfo.hash, hfi, hfex, hfc]
  have hh2 : (FileInfo.hash md5hex fs fj).1 = "" := by
    simp [FileInfo.hash, hfj, hjex, hjc]
  refine ⟨hh1, hh1.trans hh2.symm, ?_, ?_, ?_, ?_⟩
  · intro hl hr hsz ht
    have ht2 : ¬(1 < |fi.mtime - fj.mtime|) := not_lt.mpr ht
    simp [ComparisonResult.status, hl, hr, hfex, hjex, hsz, ht2, hh1, hh2]
  · intro gi hgi hgex bs hbs
    simp [FileInfo.hash, hgi, hgex, hbs]
    exact hmd5 bs
  · intro gi hgi hgex hbs
    simp [FileInfo.hash, hgi, hgex, hbs]
  · intro gi hgi hgex
    simp [FileInfo.hash, hgi, hgex]

/-- Witness for C4 (amended): the two unreadable `u.txt` records both hash to
the sentinel and their pair classifies IDENTICAL. -/
theorem c4_witness :
    (FileInfo.hash md5stub fs0 fi_ul).1 = ""
  ∧ (FileInfo.hash md5stub fs0 fi_ul).1 = (FileInfo.hash md5stub fs0 fi_ur).1
  ∧ (ComparisonResult.status md5stub fs0 r_unread).1 = "IDENTICAL" := by
  have h := c4_amended_hash_sentinel md5stub fs0 fi_ul fi_ur r_unread
    (by
      intro bs
      unfold md5stub
      split <;> decide)
    (by decide) (by decide) (by decide) (by decide) (by decide) (by decide)
  exact ⟨h.1, h.2.1, h.2.2.1 rfl rfl (by decide) (by decide)⟩

/-- C5 counterexample: the refresh command issued while `copying = true` is
not a no-op — it invokes a rescan and changes the controller state
(`_refresh_directories` has no busy/empty gate in the source). -/
theorem c5_counterexample_refresh_not_gated :
    ui_busy.copying = true
  ∧ (CursesUI._refresh_directories fs0 ui_busy).2 = [Effect.rescan]
  ∧ (CursesUI._refresh_directories fs0 ui_busy).1 ≠ ui_busy := by decide

/-- C5 amended: every command among copy-left-to-right, copy-right-to-left,
edit (any side), merge and manual-merge issued while busy or while the result
list is empty is a no-op — state unchanged and no collaborator invoked.
Refresh is not gated: it always rescans (invoking the scan collaborator) and
resets selection and scroll to 0. -/
theorem c5_amended_busy_empty_gate (editor_ok merge_tool_ok : Bool)
    (tmp_name : Option String) (md5hex : List Nat → String) (fs : FS)
    (s : CursesUI) (side : String)
    (h : s.copying = true ∨ s.comparer.results = []) :
    CursesUI._copy_file_left_to_right s = (s, [])
  ∧ CursesUI._copy_file_right_to_left s = (s, [])
  ∧ CursesUI._edit_file editor_ok fs s side = (s, [])
  ∧ CursesUI._merge_files merge_tool_ok editor_ok md5hex fs s = (s, [])
  ∧ CursesUI._manual_merge tmp_name editor_ok md5hex fs s = (s, [])
  ∧ (CursesUI._refresh_directories fs s).1.comparer.selected_index = 0
  ∧ (CursesUI._refresh_directories fs s).1.scroll_offset = 0
  ∧ (CursesUI._refresh_directories fs s).2 = [Effect.rescan] := by
  have hg : (s.copying || s.comparer.results.isEmpty) = true := by
    rcases h with h | h
    · simp [h]
    · simp [h]
  refine ⟨?_, ?_, ?_, ?_, ?_, rfl, rfl, rfl⟩ <;>
    · simp [CursesUI._copy_file_left_to_right, CursesUI._copy_file_right_to_left,
        CursesUI._edit_file, CursesUI._merge_files, CursesUI._manual_merge, hg]

/-- Witness for C5 (amended): the gated commands are no-ops on the concrete
busy state, and refresh on it resets scroll. -/
theorem c5_witness :
    CursesUI._copy_file_left_to_right ui_busy = (ui_busy, [])
  ∧ CursesUI._edit_file true fs0 ui_busy "both" = (ui_busy, [])
  ∧ (CursesUI._refresh_directories fs0 ui_busy).1.scroll_offset = 0 := by
  have h := c5_amended_busy_empty_gate true true (some "tmp.merge") md5stub fs0 ui_busy
    "both" (Or.inl rfl)
  exact ⟨h.1, h.2.2.1, h.2.2.2.2.2.2.1⟩

/-- C6: `_move_selection` is a no-op when the result list is empty (the whole
state, selection and scroll included, is unchanged); otherwise it sets the
selected index to `clamp(selected_index + delta, 0, len-1)`, clears the status
message, leaves the results untouched, and the resulting index is never
outside `[0, len-1]`. -/
theorem c6_move_selection (s : CursesUI) (delta : Int) :
    (s.comparer.results = [] → CursesUI._move_selection s delta = s)
  ∧ (s.comparer.results ≠ [] →
      (CursesUI._move_selection s delta).comparer.selected_index =
        max 0 (min ((s.comparer.results.length : Int) - 1)
          (s.comparer.selected_index + delta))
    ∧ (CursesUI._move_selection s delta).status_message = ""
    ∧ (CursesUI._move_selection s delta).comparer.results = s.comparer.results
    ∧ 0 ≤ (CursesUI._move_selection s delta).comparer.selected_index
    ∧ (CursesUI._move_selection s delta).comparer.selected_index ≤
        (s.comparer.results.length : Int) - 1) := by
  constructor
  · intro h
    simp [CursesUI._move_selection, h]
  · intro h
    have he : s.comparer.results.isEmpty = false := by
      simpa [List.isEmpty_iff] using h
    have hlen : s.comparer.results.length ≠ 0 := by
      simpa [List.length_eq_zero] using h
    refine ⟨?_, ?_, ?_, ?_, ?_⟩ <;>
      simp [CursesUI._move_selection, he] <;> omega

/-- Witness for C6 (Scenario E): moving by +5 in a 3-item list from index 0
clamps the selection to index 2 and clears the status message. -/
theorem c6_witness :
    (CursesUI._move_selection ui3 5).comparer.selected_index = 2
  ∧ (CursesUI._move_selection ui3 5).status_message = "" := by
  have h := (c6_move_selection ui3 5).2 (by decide)
  refine ⟨?_, h.2.1⟩
  rw [h.1]
  decide

/-- C7: the scroll reconciliation run before every render sets the offset to
the selected index when it is above the window, to
`selected_index - list_height + 1` when it is below (the `max 0` in the source
is redundant there), and leaves it alone otherwise; afterwards
`scroll_offset ≤ selected_index < scroll_offset + list_height` holds whenever
the viewport has at least one row, the offset is non-negative and the selected
index is valid (non-negative). -/
theorem c7_scroll_reconciliation (selected_index scroll_offset list_height : Int)
    (hh : 1 ≤ list_height) (hs : 0 ≤ scroll_offset) (_hi : 0 ≤ selected_index) :
    adjust_scroll_offset selected_index scroll_offset list_height =
      (if selected_index < scroll_offset then selected_index
       else if scroll_offset + list_height ≤ selected_index then
         selected_index - list_height + 1
       else scroll_offset)
  ∧ adjust_scroll_offset selected_index scroll_offset list_height ≤ selected_index
  ∧ selected_index <
      adjust_scroll_offset selected_index scroll_offset list_height + list_height := by
  unfold adjust_scroll_offset
  split_ifs with h1 h2
  · exact ⟨rfl, le_refl _, by omega⟩
  · refine ⟨?_, ?_, ?_⟩ <;> omega
  · exact ⟨rfl, by omega, by omega⟩

/-- Witness for C7: selected index 5, offset 0, viewport height 3 reconciles
to offset 3, and 3 ≤ 5 < 3 + 3. -/
theorem c7_witness :
    adjust_scroll_offset 5 0 3 = 3
  ∧ adjust_scroll_offset 5 0 3 ≤ 5
  ∧ 5 < adjust_scroll_offset 5 0 3 + 3 := by
  have h := c7_scroll_reconciliation 5 0 3 (by decide) (by decide) (by decide)
  refine ⟨?_, h.2.1, h.2.2⟩
  rw [h.1]
  decide


/-- C8: for an in-range index, copy returns failure with no side effects (the
filesystem and the comparer are returned unchanged) when the source-side
record is absent or does not exist; on success it replaces only the
destination-side record of the selected result with a record freshly stat'd
from the post-copy filesystem whose hash cache is empty again, and every other
result in the list is unchanged.  Both directions are covered. -/
theorem c8_copy_targeted_patch (copy_ok : Bool) (fs : FS) (c : DirectoryComparer)
    (index : Int) (hi : 0 ≤ index ∧ index < (c.results.length : Int)) :
    (file_present (c.results.getD index.toNat empty_result).left_file = false →
      DirectoryComparer.copy_file_left_to_right copy_ok fs c index = (false, fs, c))
  ∧ (file_present (c.results.getD index.toNat empty_result).right_file = false →
      DirectoryComparer.copy_file_right_to_left copy_ok fs c index = (false, fs, c))
  ∧ (∀ lf, (c.results.getD index.toNat empty_result).left_file = some lf →
      lf.exists_ = true → copy_ok = true →
      (DirectoryComparer.copy_file_left_to_right copy_ok fs c index).1 = true
    ∧ (DirectoryComparer.copy_file_left_to_right copy_ok fs c index).2.2.results.getD
          index.toNat empty_result =
        { c.results.getD index.toNat empty_result with
          right_file := some (FileInfo.init
            (DirectoryComparer.copy_file_left_to_right copy_ok fs c index).2.1
            (c.right_dir ++ "/" ++ (c.results.getD index.toNat empty_result).relative_path)
            (c.results.getD index.toNat empty_result).relative_path) }
    ∧ (FileInfo.init (DirectoryComparer.copy_file_left_to_right copy_ok fs c index).2.1
          (c.right_dir ++ "/" ++ (c.results.getD index.toNat empty_result).relative_path)
          (c.results.getD index.toNat empty_result).relative_path)._hash = none
    ∧ ∀ j, j ≠ index.toNat →
        (DirectoryComparer.copy_file_left_to_right copy_ok fs c index).2.2.results.getD j
          empty_result = c.results.getD j empty_result)
  ∧ (∀ rf, (c.results.getD index.toNat empty_result).right_file = some rf →
      rf.exists_ = true → copy_ok = true →
      (DirectoryComparer.copy_file_right_to_left copy_ok fs c index).1 = true
    ∧ (DirectoryComparer.copy_file_right_to_left copy_ok fs c index).2.2.results.getD
          index.toNat empty_result =
        { c.results.getD index.toNat empty_result with
          left_file := some (FileInfo.init
            (DirectoryComparer.copy_file_right_to_left copy_ok fs c index).2.1
            (c.left_dir ++ "/" ++ (c.results.getD index.toNat empty_result).relative_path)
            (c.results.getD index.toNat empty_result).relative_path) }
    ∧ (FileInfo.init (DirectoryComparer.copy_file_right_to_left copy_ok fs c index).2.1
          (c.left_dir ++ "/" ++ (c.results.getD index.toNat empty_result).relative_path)
          (c.results.getD index.toNat empty_result).relative_path)._hash = none
    ∧ ∀ j, j ≠ index.toNat →
        (DirectoryComparer.copy_file_right_to_left copy_ok fs c index).2.2.results.getD j
          empty_result = c.results.getD j empty_result) := by
  have hlt : index.toNat < c.results.length := by omega
  refine ⟨?_, ?_, ?_, ?_⟩
  · intro hp
    cases hlf : (c.results.getD index.toNat empty_result).left_file with
    | none =>
      unfold DirectoryComparer.copy_file_left_to_right
      rw [if_pos hi]
      rw [List.getD_eq_getElem?_getD] at hlf
      simp [hlf]
    | some lf =>
      rw [hlf] at hp
      simp only [file_present] at hp
      unfold DirectoryComparer.copy_file_left_to_right
      rw [if_pos hi]
      rw [List.getD_eq_getElem?_getD] at hlf
      simp [hlf, hp]
  · intro hp
    cases hrf : (c.results.getD index.toNat empty_result).right_file with
    | none =>
      unfold DirectoryComparer.copy_file_right_to_left
      rw [if_pos hi]
      rw [List.getD_eq_getElem?_getD] at hrf
      simp [hrf]
    | some rf =>
      rw [hrf] at hp
      simp only [file_present] at hp
      unfold DirectoryComparer.copy_file_right_to_left
      rw [if_pos hi]
      rw [List.getD_eq_getElem?_getD] at hrf
      simp [hrf, hp]
  · intro lf hlf hlex hok
    subst hok
    have hout : DirectoryComparer.copy_file_left_to_right true fs c index =
        (true,
         copy2 fs lf.path
           (c.right_dir ++ "/" ++ (c.results.getD index.toNat empty_result).relative_path),
         { c with
             results := c.results.set index.toNat
                 { c.results.getD index.toNat empty_result with
                   right_file := some (FileInfo.init
                     (copy2 fs lf.path
                       (c.right_dir ++ "/" ++
                         (c.results.getD index.toNat empty_result).relative_path))
                     (c.right_dir ++ "/" ++
                       (c.results.getD index.toNat empty_result).relative_path)
                     (c.results.getD index.toNat empty_result).relative_path) } }) := by
      unfold DirectoryComparer.copy_file_left_to_right
      rw [if_pos hi]
      rw [List.getD_eq_getElem?_getD] at hlf
      simp [hlf, hlex]
    rw [hout]
    refine ⟨rfl, ?_, rfl, ?_⟩
    · simp [List.getD_eq_getElem?_getD, List.getElem?_set_eq_of_lt _ hlt]
    · intro j hj
      simp [List.getD_eq_getElem?_getD, List.getElem?_set_ne (Ne.symm hj)]
  · intro rf hrf hrex hok
    subst hok
    have hout : DirectoryComparer.copy_file_right_to_left true fs c index =
        (true,
         copy2 fs rf.path
           (c.left_dir ++ "/" ++ (c.results.getD index.toNat empty_result).relative_path),
         { c with
             results := c.results.set index.toNat
                 { c.results.getD index.toNat empty_result with
                   left_file := some (FileInfo.init
                     (copy2 fs rf.path
                       (c.left_dir ++ "/" ++
                         (c.results.getD index.toNat empty_result).relative_path))
                     (c.left_dir ++ "/" ++
                       (c.results.getD index.toNat empty_result).relative_path)
                     (c.results.getD index.toNat empty_result).relative_path) } }) := by
      unfold DirectoryComparer.copy_file_right_to_left
      rw [if_pos hi]
      rw [List.getD_eq_getElem?_getD] at hrf
      simp [hrf, hrex]
    rw [hout]
    refine ⟨rfl, ?_, rfl, ?_⟩
    · simp [List.getD_eq_getElem?_getD, List.getElem?_set_eq_of_lt _ hlt]
    · intro j hj
      simp [List.getD_eq_getElem?_getD, List.getElem?_set_ne (Ne.symm hj)]

/-- Witness for C8: on the concrete comparer, copying right-to-left at index 1
fails with no side effects (the right record is absent), while copying
left-to-right at index 0 succeeds with a fresh uncached destination record and
leaves the result at index 1 unchanged. -/
theorem c8_witness :
    DirectoryComparer.copy_file_right_to_left true fs0 cmp0 1 = (false, fs0, cmp0)
  ∧ (DirectoryComparer.copy_file_left_to_right true fs0 cmp0 0).1 = true
  ∧ (FileInfo.init (DirectoryComparer.copy_file_left_to_right true fs0 cmp0 0).2.1
      (cmp0.right_dir ++ "/" ++ (cmp0.results.getD (0 : Int).toNat empty_result).relative_path)
      (cmp0.results.getD (0 : Int).toNat empty_result).relative_path)._hash = none
  ∧ (DirectoryComparer.copy_file_left_to_right true fs0 cmp0 0).2.2.results.getD 1
      empty_result = cmp0.results.getD 1 empty_result := by
  have h1 := (c8_copy_targeted_patch true fs0 cmp0 1 (by decide)).2.1 (by decide)
  have h2 := (c8_copy_targeted_patch true fs0 cmp0 0 (by decide)).2.2.1 fi_a (by decide)
    (by decide) rfl
  exact ⟨h1, h2.1, h2.2.2.1, h2.2.2.2 1 (by decide)⟩

/-- C9: the claim says the busy flag is set to true before the copy work is
dispatched to the background worker, so a second mutating command can never
be accepted while one is in flight.  In the source the flag is only assigned
inside the worker thread (`copy_thread`) after `Thread(...).start()`: the
handler dispatches while leaving `copying` false, so a second copy command
issued before the worker has run is accepted as well.  The worker does clear
the flag on completion. -/
theorem c9_busy_set_after_dispatch :
    ui_ready.copying = false
  ∧ (CursesUI._copy_file_left_to_right ui_ready).2 = [Effect.dispatch_copy_left_to_right]
  ∧ (CursesUI._copy_file_left_to_right ui_ready).1.copying = false
  ∧ (CursesUI._copy_file_left_to_right
      (CursesUI._copy_file_left_to_right ui_ready).1).2 =
        [Effect.dispatch_copy_left_to_right]
  ∧ (CursesUI.copy_thread_left_to_right true fs0 ui_ready).1.copying = false := by
  decide

/-- C10: every file-level operation taking a result index — both copies, edit
and merge — returns failure with no state change and no collaborator invoked
for every index outside `[0, len(results))`. -/
theorem c10_out_of_range_rejected (copy_ok editor_ok merge_tool_ok : Bool)
    (md5hex : List Nat → String) (fs : FS) (c : DirectoryComparer) (index : Int)
    (side : String)
    (hi : ¬(0 ≤ index ∧ index < (c.results.length : Int))) :
    DirectoryComparer.copy_file_left_to_right copy_ok fs c index = (false, fs, c)
  ∧ DirectoryComparer.copy_file_right_to_left copy_ok fs c index = (false, fs, c)
  ∧ DirectoryComparer.edit_file editor_ok c index side = (false, [])
  ∧ DirectoryComparer.merge_files merge_tool_ok editor_ok md5hex fs c index =
      (false, []) := by
  refine ⟨?_, ?_, ?_, ?_⟩
  · unfold DirectoryComparer.copy_file_left_to_right
    rw [if_neg hi]
  · unfold DirectoryComparer.copy_file_right_to_left
    rw [if_neg hi]
  · unfold DirectoryComparer.edit_file
    rw [if_neg hi]
  · unfold DirectoryComparer.merge_files
    rw [if_neg hi]

/-- Witness for C10: indices -1 and 2 are out of range for the two-entry
concrete comparer and every operation rejects them. -/
theorem c10_witness :
    DirectoryComparer.copy_file_left_to_right true fs0 cmp0 (-1) = (false, fs0, cmp0)
  ∧ DirectoryComparer.edit_file true cmp0 (-1) "both" = (false, [])
  ∧ DirectoryComparer.merge_files true true md5stub fs0 cmp0 2 = (false, []) := by
  have h1 := c10_out_of_range_rejected true true true md5stub fs0 cmp0 (-1) "both"
    (by decide)
  have h2 := c10_out_of_range_rejected true true true md5stub fs0 cmp0 2 "both"
    (by decide)
  exact ⟨h1.1, h1.2.2.1, h2.2.2.2⟩
